import Mathlib

/-!
Verification development for the Deity-js mood engine.

Shallow embedding of the source files:
  * `src/unnamed/part_001` — the `Ledger` class (decaying weighted event log);
  * `src/mood.js`          — the `Mood` class (6-dimensional hysteretic mood vector);
  * `src/supplicant.js`    — the `Supplicant` class (frequency-based predictor);
  * `src/deity.js`         — the `Deity` class (tick orchestrator and public API).

JS numbers are modelled as real numbers (`ℝ`); `Math.pow` with a real
exponent is `Real.rpow`, `Math.sin` is `Real.sin`.  The supplicant's purely
rational bookkeeping is modelled over `ℚ` so that it stays decidable.
Ticks are natural numbers; the mood engine's `lastResolvedTick` starts at
`-1` and is therefore an integer.  Optional / possibly-absent JS values are
`Option`s; the open `meta` bag of a ledger entry is modelled as a record of
the fields the engine actually reads.  Event-callback functions themselves
carry no state that the engine reads back, so a listener list is modelled
by its length witness (`List Unit`); emission of events is pure output and
is not part of the state transition.
-/

open scoped Classical

/-- The six mood dimensions, in the order of the `DIMENSIONS` array of
`src/mood.js` (line 13). -/
inductive Dim : Type
  | wrath
  | serenity
  | hunger
  | amusement
  | sorrow
  | chaos
deriving DecidableEq

/-- The `DIMENSIONS` array itself. -/
def dimList : List Dim :=
  [.wrath, .serenity, .hunger, .amusement, .sorrow, .chaos]

/-- `DIMENSIONS.indexOf(d)` from `src/mood.js` line 221. -/
def dimIndex : Dim → ℕ
  | .wrath => 0
  | .serenity => 1
  | .hunger => 2
  | .amusement => 3
  | .sorrow => 4
  | .chaos => 5

/-- A left-to-right sum over the six dimensions in `DIMENSIONS` order —
the shape of every `reduce` over `DIMENSIONS` in the source. -/
def sumDim (f : Dim → ℝ) : ℝ :=
  f .wrath + f .serenity + f .hunger + f .amusement + f .sorrow + f .chaos

/-- The metadata bag of a ledger entry: the fields of `meta` that the
engine itself writes or reads (`src/deity.js` offer/action/desecrate,
`src/mood.js` `_computeImpulse`, `src/unnamed/part_001` `variety`).
A field that may be absent in JS is an `Option`; `synthetic` is only ever
tested for truthiness, so it is a `Bool` defaulting to `false`. -/
structure Meta where
  offeringType : Option String
  actionType : Option String
  desecrationType : Option String
  value : Option ℝ
  effectiveValue : Option ℝ
  alignment : Option String
  favor : Option ℝ
  magnitude : Option ℝ
  synthetic : Bool
  reason : Option String

/-- The empty metadata object `{}`. -/
def Meta.empty : Meta :=
  ⟨none, none, none, none, none, none, none, none, false, none⟩

/-- A ledger entry: `{type, tick, meta}` (`src/unnamed/part_001` line 32). -/
structure Entry where
  type : String
  tick : ℕ
  meta : Meta

/-- The `Ledger` state (`src/unnamed/part_001`). -/
structure Ledger where
  halfLife : ℝ
  entries : List Entry
  tick : ℕ

/-- `new Ledger({decayHalfLife})` (the default half-life is 100). -/
def Ledger.create (halfLife : ℝ) : Ledger :=
  ⟨halfLife, [], 0⟩

/-- `Ledger.record(type, meta)`: push `{type, tick: this._tick, meta}`. -/
def Ledger.record (l : Ledger) (ty : String) (meta : Meta) : Ledger :=
  { l with entries := l.entries ++ [⟨ty, l.tick, meta⟩] }

/-- `Ledger.advanceTick(n)`. -/
def Ledger.advanceTick (l : Ledger) (n : ℕ) : Ledger :=
  { l with tick := l.tick + n }

/-- `Ledger._weight(entry) = 0.5 ^ (max(0, tick - entry.tick) / halfLife)`.
`Math.max(0, this._tick - entry.tick)` is truncated natural subtraction. -/
noncomputable def Ledger.weight (l : Ledger) (e : Entry) : ℝ :=
  ((1 : ℝ) / 2) ^ (((l.tick - e.tick : ℕ) : ℝ) / l.halfLife)

/-- `Ledger.weightedCount(type)`: sum of weights of entries of a kind. -/
noncomputable def Ledger.weightedCount (l : Ledger) (ty : String) : ℝ :=
  ((l.entries.filter (fun e => e.type == ty)).map l.weight).sum

/-- `Ledger.ticksSinceLast(type)`: ticks since the newest entry of the
kind, searching newest-first; `none` models the `Infinity` sentinel. -/
def Ledger.ticksSinceLast (l : Ledger) (ty : String) : Option ℕ :=
  match l.entries.reverse.find? (fun e => e.type == ty) with
  | some e => some (l.tick - e.tick)
  | none => none

/-- JS `Math.min` on two possibly-`Infinity` tick counts. -/
def optMin : Option ℕ → Option ℕ → Option ℕ
  | none, b => b
  | some x, none => some x
  | some x, some y => some (min x y)

/-- JS `a || b` on the optional sub-kind strings: the empty string is
falsy, so it falls through exactly like `undefined`. -/
def jsOrS : Option String → String → String
  | some s, b => if s = "" then b else s
  | none, b => b

/-- `e.meta.offeringType || e.meta.actionType || ''` from `variety`. -/
def Entry.subKind (e : Entry) : String :=
  jsOrS e.meta.offeringType (jsOrS e.meta.actionType "")

/-- `Ledger.variety()`: number of distinct `type:subKind` strings. -/
def Ledger.variety (l : Ledger) : ℕ :=
  ((l.entries.map (fun e => e.type ++ ":" ++ e.subKind)).dedup).length

/-- `Ledger.currentStreak(type)`: consecutive most-recent entries of the
kind, scanning backward from the end. -/
def Ledger.currentStreak (l : Ledger) (ty : String) : ℕ :=
  (l.entries.reverse.takeWhile (fun e => e.type == ty)).length

/-- JS `array.slice(-n)`: for `n = 0` this is `slice(0)`, a copy of the
whole array; otherwise it is the last `n` elements. -/
def jsSliceNeg (n : ℕ) (l : List Entry) : List Entry :=
  if n = 0 then l else l.drop (l.length - n)

/-- `Ledger.recent(n) = this._entries.slice(-n).reverse()`. -/
def Ledger.recent (l : Ledger) (n : ℕ) : List Entry :=
  (jsSliceNeg n l.entries).reverse

/-- The plain-data snapshot produced by `Ledger.serialize()`; the source
copies each entry and its meta, which on pure values is the identity. -/
structure LedgerData where
  halfLife : ℝ
  tick : ℕ
  entries : List Entry

/-- `Ledger.serialize()`. -/
def Ledger.serialize (l : Ledger) : LedgerData :=
  ⟨l.halfLife, l.tick, l.entries⟩

/-- `Ledger.deserialize(data)`. -/
def Ledger.deserialize (d : LedgerData) : Ledger :=
  ⟨d.halfLife, d.entries, d.tick⟩

/-! ## Mood (`src/mood.js`) -/

/-- The `Mood` state.  The `_dirty` flag of the source is written but
never read, so it is omitted. -/
@[ext]
structure Mood where
  personality : Dim → ℝ
  hysteresis : ℝ
  attractorStrength : ℝ
  vector : Dim → ℝ
  lastResolvedTick : ℤ

/-- `Mood.fromPartial(partial)`: fill in missing dimensions with an equal
share of the remaining (non-negative) mass. -/
noncomputable def Mood.fromPartial (p : Dim → Option ℝ) : Dim → ℝ :=
  let assigned := sumDim (fun d => (p d).getD 0)
  let unassigned := (dimList.filter (fun d => (p d).isNone)).length
  let share := if unassigned > 0 then max 0 (1 - assigned) / unassigned else 0
  fun d => match p d with
    | some x => x
    | none => share

/-- `Mood.normalize(vec)`: clamp each dimension at 0 and divide by the
total; when the clamped total is 0, fall back to the uniform vector. -/
noncomputable def Mood.normalize (v : Dim → ℝ) : Dim → ℝ :=
  let s := sumDim (fun d => max 0 (v d))
  if s = 0 then fun _ => 1 / 6
  else fun d => max 0 (v d) / s

/-- The `Mood` constructor:
`new Mood(personality, {hysteresis, attractorStrength})`. -/
noncomputable def Mood.create (p : Dim → Option ℝ) (hysteresis attractorStrength : ℝ) :
    Mood :=
  { personality := Mood.normalize (Mood.fromPartial p)
    hysteresis := hysteresis
    attractorStrength := attractorStrength
    vector := Mood.normalize (Mood.fromPartial p)
    lastResolvedTick := -1 }

/-- `o.meta.effectiveValue ?? (o.meta.value ?? 0.3)` for an offer entry. -/
def Entry.offerValue (e : Entry) : ℝ :=
  e.meta.effectiveValue.getD (e.meta.value.getD 0.3)

/-- The offering impact: sum of `effectiveValue * weight` over all
non-synthetic `offer` entries (`_computeImpulse`, lines 116–121). -/
noncomputable def Mood.offerImpact (l : Ledger) : ℝ :=
  ((l.entries.filter (fun e => e.type == "offer" && !e.meta.synthetic)).map
    (fun e => e.offerValue * l.weight e)).sum

/-- Offering contribution to the impulse (lines 122–130). -/
noncomputable def Mood.offerTerm (l : Ledger) : Dim → ℝ := fun d =>
  let oi := Mood.offerImpact l
  if 0 < oi then
    match d with
    | .serenity => oi * 0.04
    | .hunger => -(oi * 0.03)
    | .wrath => -(oi * 0.02)
    | _ => 0
  else if oi < 0 then
    match d with
    | .wrath => -(oi * 0.06)
    | .amusement => 0.01
    | _ => 0
  else 0

/-- Variety contribution (lines 133–134). -/
noncomputable def Mood.varietyTerm (l : Ledger) : Dim → ℝ := fun d =>
  match d with
  | .amusement => min ((l.variety : ℝ) * 0.02) 0.1
  | _ => 0

/-- The impulse pushed by one world action of signed impact
`favor * magnitude * weight` (lines 143–153). -/
noncomputable def Mood.actionContrib (impact : ℝ) : Dim → ℝ := fun d =>
  if 0 < impact then
    match d with
    | .serenity => impact * 0.03
    | .amusement => impact * 0.02
    | .wrath => -(impact * 0.01)
    | _ => 0
  else if impact < 0 then
    match d with
    | .wrath => -(impact * 0.04)
    | .sorrow => -(impact * 0.02)
    | .serenity => impact * 0.02
    | _ => 0
  else 0

/-- World-action contribution (lines 137–154). -/
noncomputable def Mood.actionTerm (l : Ledger) : Dim → ℝ := fun d =>
  ((l.entries.filter (fun e => e.type == "action")).map
    (fun a =>
      Mood.actionContrib (a.meta.favor.getD 0 * a.meta.magnitude.getD 0.3 * l.weight a) d)).sum

/-- Prayer contribution (lines 157–164). -/
noncomputable def Mood.prayTerm (l : Ledger) : Dim → ℝ := fun d =>
  let prayWeight := l.weightedCount "pray"
  let prayStreak := l.currentStreak "pray"
  if 2 < prayStreak then
    match d with
    | .wrath => (prayStreak : ℝ) * 0.05
    | .amusement => -0.03
    | _ => 0
  else if 0 < prayWeight ∧ prayWeight < 1.5 then
    match d with
    | .serenity => 0.03
    | _ => 0
  else 0

/-- Desecration contribution (lines 167–170). -/
noncomputable def Mood.desecrateTerm (l : Ledger) : Dim → ℝ := fun d =>
  let w := l.weightedCount "desecrate"
  match d with
  | .wrath => w * 0.1
  | .chaos => w * 0.06
  | .serenity => -(w * 0.08)
  | _ => 0

/-- `min(ticksSinceAny / 20, 1)`, where a missing interaction is the
`Infinity` sentinel and saturates the factor at 1. -/
noncomputable def neglectFactorOf : Option ℕ → ℝ
  | none => 1
  | some k => min ((k : ℝ) / 20) 1

/-- Neglect contribution (lines 173–180). -/
noncomputable def Mood.neglectTerm (l : Ledger) : Dim → ℝ := fun d =>
  let nw := l.weightedCount "neglect"
  let nf := neglectFactorOf (optMin (l.ticksSinceLast "offer") (l.ticksSinceLast "pray"))
  match d with
  | .hunger => nw * 0.03 + nf * 0.05
  | .sorrow => nf * 0.04
  | .serenity => -(nf * 0.03)
  | _ => 0

/-- Repetition-aversion contribution (lines 183–191): if the most recent
five entries contain fewer than half unique kinds, amusement drops and
wrath rises. -/
noncomputable def Mood.repetitionTerm (l : Ledger) : Dim → ℝ := fun d =>
  if l.entries.length = 0 then 0
  else
    let types := (l.recent 5).map (fun e => e.type)
    if ((types.dedup.length : ℝ) / types.length) < 0.5 then
      match d with
      | .amusement => -0.03
      | .wrath => 0.02
      | _ => 0
    else 0

/-- `Mood._computeImpulse(ledger)`: all per-dimension additions of the
source body, summed (the source mutates an accumulator; every mutation is
an addition, so the final value is the sum of the contributions). -/
noncomputable def Mood.computeImpulse (l : Ledger) : Dim → ℝ := fun d =>
  Mood.offerTerm l d + Mood.varietyTerm l d + Mood.actionTerm l d + Mood.prayTerm l d +
    Mood.desecrateTerm l d + Mood.neglectTerm l d + Mood.repetitionTerm l d

/-- `Mood._computeAttractor()`. -/
def Mood.computeAttractor (m : Mood) : Dim → ℝ := fun d =>
  (m.personality d - m.vector d) * m.attractorStrength

/-- The raw (pre-normalization) vector built by the loop of
`Mood.resolve` (lines 87–101). -/
noncomputable def Mood.resolveRaw (m : Mood) (l : Ledger) : Dim → ℝ := fun d =>
  let current := m.vector d
  let imp := Mood.computeImpulse l d
  let att := Mood.computeAttractor m d
  let resistance := current * m.hysteresis
  let delta := imp + att
  let effectiveDelta :=
    if 0 < delta then delta * (1 - resistance) else delta * (1 + resistance)
  current + effectiveDelta

/-- `Mood.resolve(ledger, currentTick)`: a no-op when the tick was
already resolved, otherwise normalize the raw blended vector and remember
the tick. -/
noncomputable def Mood.resolve (m : Mood) (l : Ledger) (t : ℤ) : Mood :=
  if t = m.lastResolvedTick then m
  else
    { m with
      vector := Mood.normalize (m.resolveRaw l)
      lastResolvedTick := t }

/-- `Mood.query({precise})`: the exact vector when `precise`, otherwise
the deterministically fuzzed, re-normalized read (lines 211–226). -/
noncomputable def Mood.query (m : Mood) (precise : Bool) : Dim → ℝ :=
  if precise then m.vector
  else
    Mood.normalize (fun d =>
      max 0 (min 1 (m.vector d + Real.sin (m.vector d * 1000 + (dimIndex d : ℝ)) * 0.02)))

/-- `Mood.dominant()`: fold over the dimensions keeping the first
strictly-largest value; `max` starts at `-1` and `dom` at `null`. -/
noncomputable def Mood.dominant (m : Mood) : Option Dim × ℝ :=
  dimList.foldl
    (fun best d => if best.2 < m.vector d then (some d, m.vector d) else best)
    ((none : Option Dim), -1)

/-- The snapshot produced by `Mood.serialize()`. -/
structure MoodData where
  personality : Dim → ℝ
  vector : Dim → ℝ
  hysteresis : ℝ
  attractorStrength : ℝ
  lastResolvedTick : ℤ

/-- `Mood.serialize()`. -/
def Mood.serialize (m : Mood) : MoodData :=
  ⟨m.personality, m.vector, m.hysteresis, m.attractorStrength, m.lastResolvedTick⟩

/-- `Mood.deserialize(data)`: rebuild through the constructor (which
re-normalizes the stored personality), then overwrite the vector and the
last-resolved tick. -/
noncomputable def Mood.deserialize (d : MoodData) : Mood :=
  { Mood.create (fun dim => some (d.personality dim)) d.hysteresis d.attractorStrength with
    vector := d.vector
    lastResolvedTick := d.lastResolvedTick }

/-! ## Supplicant (`src/supplicant.js`)

The supplicant's arithmetic (surprise level, confidence, accuracy ratio)
only ever combines rational literals, so it is modelled over `ℚ` and
stays fully decidable. -/

/-- The `Supplicant` state. -/
structure Supplicant where
  seqLen : ℕ
  history : List String
  freq : String → ℕ
  total : ℕ
  correct : ℕ
  lastPrediction : Option String
  lastConfidence : ℚ
  surprise : ℚ

/-- `new Supplicant({sequenceLength})` (default 10). -/
def Supplicant.create (seqLen : ℕ) : Supplicant :=
  ⟨seqLen, [], fun _ => 0, 0, 0, none, 0, 0⟩

/-- JS `array.slice(-n)` on the history (same `-0` quirk as `recent`). -/
def jsSliceNegS (n : ℕ) (l : List String) : List String :=
  if n = 0 then l else l.drop (l.length - n)

/-- The set of keys of the `counts` object of `_predict`, in insertion
order — i.e. in order of first occurrence in the window. -/
def firstOccurrences (l : List String) : List String :=
  l.foldl (fun acc t => if t ∈ acc then acc else acc ++ [t]) []

/-- `Supplicant._predict()` over a given window: the first kind attaining
the strictly largest count, and `bestCount / window.length`. -/
def Supplicant.predictOf (window : List String) : Option String × ℚ :=
  let best :=
    (firstOccurrences window).foldl
      (fun best t =>
        let c := window.count t
        if best.2 < c then (some t, c) else best)
      ((none : Option String), 0)
  (best.1, if window.length > 0 then (best.2 : ℚ) / window.length else 0)

/-- `Supplicant.omniscient`: accuracy above 0.85 once at least ten
interactions have been seen. -/
def Supplicant.omniscient (s : Supplicant) : Bool :=
  if s.total < 10 then false
  else decide ((0.85 : ℚ) < (s.correct : ℚ) / (s.total : ℚ))

/-- `Supplicant.record(type)`: returns the `{predicted, surprised}`
signal and the updated state. -/
def Supplicant.record (s : Supplicant) (ty : String) :
    (Option String × Bool) × Supplicant :=
  let predicted := s.lastPrediction
  let surprised :=
    match predicted with
    | none => false
    | some p => p != ty
  let correct := if predicted = some ty then s.correct + 1 else s.correct
  let surprise :=
    if surprised then min 1 (s.surprise + 0.3) else max 0 (s.surprise - 0.1)
  let history1 := s.history ++ [ty]
  let history2 :=
    if s.seqLen * 3 < history1.length then jsSliceNegS (s.seqLen * 2) history1
    else history1
  let freq := fun t => if t = ty then s.freq t + 1 else s.freq t
  let pred := Supplicant.predictOf (jsSliceNegS s.seqLen history2)
  ((predicted, surprised),
    { s with
      history := history2
      freq := freq
      total := s.total + 1
      correct := correct
      lastPrediction := pred.1
      lastConfidence := pred.2
      surprise := surprise })

/-- The snapshot produced by `Supplicant.serialize()`. -/
structure SupplicantData where
  seqLen : ℕ
  history : List String
  freq : String → ℕ
  total : ℕ
  correct : ℕ
  lastPrediction : Option String
  lastConfidence : ℚ
  surprise : ℚ

/-- `Supplicant.serialize()`. -/
def Supplicant.serialize (s : Supplicant) : SupplicantData :=
  ⟨s.seqLen, s.history, s.freq, s.total, s.correct, s.lastPrediction,
    s.lastConfidence, s.surprise⟩

/-- `Supplicant.deserialize(data)`. -/
def Supplicant.deserialize (d : SupplicantData) : Supplicant :=
  ⟨d.seqLen, d.history, d.freq, d.total, d.correct, d.lastPrediction,
    d.lastConfidence, d.surprise⟩

/-! ## Deity (`src/deity.js`) -/

/-- The fixed event-name enumeration `EVENTS` (line 16). -/
def EVENTS : List String :=
  ["moodShift", "utterance", "demand", "omen", "miracle", "wrath"]

/-- The built-in favor map defaults (lines 50–59). -/
noncomputable def defaultFavorMap : String → Option ℝ := fun t =>
  if t = "kill" then some 0
  else if t = "steal" then some 0
  else if t = "heal" then some 0.2
  else if t = "destroy" then some (-0.1)
  else if t = "create" then some 0.2
  else if t = "betray" then some (-0.3)
  else if t = "protect" then some 0.3
  else none

/-- The `Deity` state.  Event thresholds and the callback closures only
drive the pure event output (`_emit`), never the ledger/mood/supplicant
state, so a listener list is modelled by a `List Unit` and thresholds are
omitted; `this._listeners[event]` being absent is the `none` case. -/
structure Deity where
  name : String
  alignment : String
  favorMap : String → Option ℝ
  ledger : Ledger
  mood : Mood
  supplicant : Supplicant
  listeners : String → Option (List Unit)
  neglectThreshold : ℕ
  prevDominant : Option Dim
  tick : ℕ

/-- The `Deity` constructor with its option bag spelled out
(personality, mood options, ledger half-life, supplicant sequence length,
alignment, favor-map overrides, neglect threshold). -/
noncomputable def Deity.create (name : String) (p : Dim → Option ℝ)
    (hysteresis attractorStrength halfLife : ℝ) (seqLen : ℕ)
    (alignment : String) (favorMap : String → Option ℝ)
    (neglectThreshold : ℕ) : Deity :=
  { name := name
    alignment := alignment
    favorMap := fun t => favorMap t <|> defaultFavorMap t
    ledger := Ledger.create halfLife
    mood := Mood.create p hysteresis attractorStrength
    supplicant := Supplicant.create seqLen
    listeners := fun e => if EVENTS.contains e then some [] else none
    neglectThreshold := neglectThreshold
    prevDominant := none
    tick := 0 }

/-- A deity created with every constructor option left at its default. -/
noncomputable def defaultDeity : Deity :=
  Deity.create "The Unnamed" (fun _ => none) 0.3 0.05 100 10 "neutral"
    (fun _ => none) 3

/-- `Deity.on(event, fn)`: throws on an event name outside the listener
table, otherwise registers the callback.  The thrown `Error` is the
`error` case; the callback itself carries no engine-visible state. -/
def Deity.on (g : Deity) (event : String) : Except String Deity :=
  match g.listeners event with
  | none =>
    Except.error ("Unknown event: " ++ event ++ ". Valid: " ++
      String.intercalate ", " EVENTS)
  | some fns =>
    Except.ok
      { g with
        listeners := fun e => if e = event then some (fns ++ [()]) else g.listeners e }

/-- Meta of the synthetic `_surprise_bonus` offer entry
(`_modulateFromSurprise`, line 247). -/
def surpriseBonusMeta : Meta :=
  { Meta.empty with offeringType := some "_surprise_bonus", synthetic := true }

/-- Meta of the synthetic predictability-boredom neglect entry
(`_modulateFromSurprise`, line 250). -/
def predictabilityMeta : Meta :=
  { Meta.empty with synthetic := true, reason := some "predictability" }

/-- Meta of the synthetic neglect entry recorded by `tick` (line 224). -/
def tickNeglectMeta : Meta :=
  { Meta.empty with synthetic := true }

/-- `Deity._modulateFromSurprise(surprise)`: a no-op when the prediction
was `null`; on a surprise, record one synthetic offer; otherwise, when
the (already updated) supplicant is omniscient, record one synthetic
neglect tagged `predictability`. -/
def Deity.modulateFromSurprise (g : Deity) (sig : Option String × Bool) : Deity :=
  match sig.1 with
  | none => g
  | some _ =>
    if sig.2 then
      { g with ledger := g.ledger.record "offer" surpriseBonusMeta }
    else if g.supplicant.omniscient then
      { g with ledger := g.ledger.record "neglect" predictabilityMeta }
    else g

/-- The entries `_modulateFromSurprise` appends to the ledger. -/
def modulateExtra (s : Supplicant) (sig : Option String × Bool) (tick : ℕ) :
    List Entry :=
  match sig.1 with
  | none => []
  | some _ =>
    if sig.2 then [⟨"offer", tick, surpriseBonusMeta⟩]
    else if s.omniscient then [⟨"neglect", tick, predictabilityMeta⟩]
    else []

/-- The meta recorded by `Deity.offer`.  The record object is
`{offeringType, value (clamped), effectiveValue, alignment, ...meta}`:
the trailing spread re-overrides `value` and `alignment` with the
caller's raw fields whenever they are present, so the stored `value` is
the unclamped input while `effectiveValue` is computed from the clamped
one. -/
noncomputable def Deity.offerMeta (g : Deity) (ty : String) (mval : Option ℝ)
    (malign : Option String) : Meta :=
  let value := max 0 (min 1 (mval.getD 0.3))
  let alignment := malign.getD "neutral"
  let effectiveValue :=
    if g.alignment ≠ "" then
      if alignment = g.alignment then value * 1.5
      else if alignment ≠ "neutral" ∧ alignment ≠ g.alignment then value * (-0.5)
      else value
    else value
  { Meta.empty with
    offeringType := some ty
    value := some (mval.getD value)
    effectiveValue := some effectiveValue
    alignment := some alignment }

/-- `Deity.offer(type, meta)`: record the offer, feed the supplicant,
then modulate from the returned surprise signal. -/
noncomputable def Deity.offer (g : Deity) (ty : String) (mval : Option ℝ)
    (malign : Option String) : Deity :=
  let g1 := { g with ledger := g.ledger.record "offer" (g.offerMeta ty mval malign) }
  let rs := g1.supplicant.record "offer"
  Deity.modulateFromSurprise { g1 with supplicant := rs.2 } rs.1

/-- `Deity.pray()`. -/
def Deity.pray (g : Deity) : Deity :=
  let g1 := { g with ledger := g.ledger.record "pray" Meta.empty }
  let rs := g1.supplicant.record "pray"
  Deity.modulateFromSurprise { g1 with supplicant := rs.2 } rs.1

/-- `Deity.desecrate(type)`. -/
def Deity.desecrate (g : Deity) (ty : String) : Deity :=
  let g1 :=
    { g with
      ledger := g.ledger.record "desecrate"
        { Meta.empty with desecrationType := some ty } }
  let rs := g1.supplicant.record "desecrate"
  Deity.modulateFromSurprise { g1 with supplicant := rs.2 } rs.1

/-- The meta recorded by `Deity.action`: `{actionType, magnitude
(clamped), favor, ...meta}` — the trailing spread re-overrides
`magnitude` with the caller's raw field when it is present, so the
clamped local survives only as the default for an absent magnitude. -/
noncomputable def Deity.actionMeta (g : Deity) (ty : String) (mmag : Option ℝ) : Meta :=
  let magnitude := max 0 (min 1 (mmag.getD 0.3))
  let favor := g.favorMap ty
  { Meta.empty with
    actionType := some ty
    magnitude := some (mmag.getD magnitude)
    favor := some (favor.getD 0) }

/-- `Deity.action(type, meta)`: record the action (the supplicant sees
it as an observed `offer` input); no surprise modulation. -/
noncomputable def Deity.action (g : Deity) (ty : String) (mmag : Option ℝ) : Deity :=
  { g with
    ledger := g.ledger.record "action" (g.actionMeta ty mmag)
    supplicant := (g.supplicant.record "offer").2 }

/-- `Deity.query()`: the fuzzed mood vector, the dominant pair and the
tick. -/
noncomputable def Deity.query (g : Deity) : (Dim → ℝ) × (Option Dim × ℝ) × ℕ :=
  (g.mood.query false, g.mood.dominant, g.tick)

/-- The neglect test of `Deity.tick`: the minimum of the three
ticks-since-last counts (with `Infinity` for a kind never seen) exceeds
the neglect threshold. -/
def Deity.neglectDue (l : Ledger) (threshold : ℕ) : Bool :=
  match optMin (optMin (l.ticksSinceLast "offer") (l.ticksSinceLast "pray"))
      (l.ticksSinceLast "desecrate") with
  | none => true
  | some k => decide (threshold < k)

/-- One iteration of the loop body of `Deity.tick` (lines 213–233):
advance both tick counters, record a synthetic neglect entry when due
(feeding the supplicant too), resolve the mood against the ledger that
already contains that entry, and let `_checkEvents` update
`_prevDominant`. -/
noncomputable def Deity.tickOnce (g : Deity) : Deity :=
  let t := g.tick + 1
  let l1 := g.ledger.advanceTick 1
  let due := Deity.neglectDue l1 g.neglectThreshold
  let l2 := if due then l1.record "neglect" tickNeglectMeta else l1
  let s2 := if due then (g.supplicant.record "neglect").2 else g.supplicant
  let mood2 := g.mood.resolve l2 (t : ℤ)
  { g with
    tick := t
    ledger := l2
    supplicant := s2
    mood := mood2
    prevDominant := mood2.dominant.1 }

/-- `Deity.tick(dt)`: run the loop body `dt` times. -/
noncomputable def Deity.tick' : Deity → ℕ → Deity
  | g, 0 => g
  | g, Nat.succ n => Deity.tick' (Deity.tickOnce g) n

/-- The snapshot produced by `Deity.serialize()` (the `thresholds` bag
only drives event output and is omitted from the model). -/
structure DeityData where
  name : String
  alignment : String
  favorMap : String → Option ℝ
  tick : ℕ
  ledger : LedgerData
  mood : MoodData
  supplicant : SupplicantData
  neglectThreshold : ℕ
  prevDominant : Option Dim

/-- `Deity.serialize()`. -/
def Deity.serialize (g : Deity) : DeityData :=
  ⟨g.name, g.alignment, g.favorMap, g.tick, g.ledger.serialize,
    g.mood.serialize, g.supplicant.serialize, g.neglectThreshold,
    g.prevDominant⟩

/-- `Deity.deserialize(data)`: rebuild through the constructor (which
re-merges the favor map with its defaults and resets the listener table)
and overwrite tick, ledger, mood, supplicant and previous dominant. -/
noncomputable def Deity.deserialize (d : DeityData) : Deity :=
  { name := d.name
    alignment := d.alignment
    favorMap := fun t => d.favorMap t <|> defaultFavorMap t
    ledger := Ledger.deserialize d.ledger
    mood := Mood.deserialize d.mood
    supplicant := Supplicant.deserialize d.supplicant
    listeners := fun e => if EVENTS.contains e then some [] else none
    neglectThreshold := d.neglectThreshold
    prevDominant := d.prevDominant
    tick := d.tick }

/-! ## Spec-side definitions

These are written from the specification's words, to be compared with
the definitions above (which follow the source). -/

/-- Spec wording of C2: the raw delta for a dimension combines the
impulse with the attractor pull `(personality[d] - current[d]) *
attractorStrength`. -/
noncomputable def resolveDeltaSpec (m : Mood) (l : Ledger) (d : Dim) : ℝ :=
  Mood.computeImpulse l d + (m.personality d - m.vector d) * m.attractorStrength

/-- Spec wording of C2: `effectiveDelta = delta > 0 ? delta * (1 -
current*hysteresis) : delta * (1 + current*hysteresis)`. -/
noncomputable def effectiveDeltaSpec (m : Mood) (l : Ledger) (d : Dim) : ℝ :=
  if 0 < resolveDeltaSpec m l d then
    resolveDeltaSpec m l d * (1 - m.vector d * m.hysteresis)
  else resolveDeltaSpec m l d * (1 + m.vector d * m.hysteresis)

/-- Spec wording of C2: negative components are clamped to 0, the vector
is renormalized to sum to 1, and if all components are non-positive it
falls back to the uniform distribution. -/
noncomputable def clampRenormSpec (v : Dim → ℝ) : Dim → ℝ :=
  if ∀ d, v d ≤ 0 then fun _ => 1 / 6
  else fun d => max 0 (v d) / sumDim (fun e => max 0 (v e))

/-- Spec wording of C4: the imprecise read perturbs each dimension's
value `v` at index `i` by `sin(v*1000 + i) * 0.02`, clamps to `[0,1]`,
then renormalizes the whole vector — a pure function of the vector. -/
noncomputable def fuzzedReadSpec (v : Dim → ℝ) : Dim → ℝ :=
  Mood.normalize (fun d =>
    max 0 (min 1 (v d + Real.sin (v d * 1000 + (dimIndex d : ℝ)) * 0.02)))

/-! ## Helper lemmas about `Mood.normalize` -/

theorem sumMax0_nonneg (v : Dim → ℝ) : 0 ≤ sumDim (fun d => max 0 (v d)) := by
  have h1 := le_max_left (0 : ℝ) (v .wrath)
  have h2 := le_max_left (0 : ℝ) (v .serenity)
  have h3 := le_max_left (0 : ℝ) (v .hunger)
  have h4 := le_max_left (0 : ℝ) (v .amusement)
  have h5 := le_max_left (0 : ℝ) (v .sorrow)
  have h6 := le_max_left (0 : ℝ) (v .chaos)
  unfold sumDim
  linarith

theorem sumMax0_eq_zero_iff (v : Dim → ℝ) :
    sumDim (fun d => max 0 (v d)) = 0 ↔ ∀ d, v d ≤ 0 := by
  constructor
  · intro h d
    have h1 := le_max_left (0 : ℝ) (v .wrath)
    have h2 := le_max_left (0 : ℝ) (v .serenity)
    have h3 := le_max_left (0 : ℝ) (v .hunger)
    have h4 := le_max_left (0 : ℝ) (v .amusement)
    have h5 := le_max_left (0 : ℝ) (v .sorrow)
    have h6 := le_max_left (0 : ℝ) (v .chaos)
    unfold sumDim at h
    have hz : max 0 (v d) = 0 := by cases d <;> linarith
    have := max_eq_left_iff.mp hz
    exact this
  · intro h
    have hz : (fun d => max 0 (v d)) = fun _ => (0 : ℝ) := by
      funext d
      exact max_eq_left (h d)
    rw [hz]
    unfold sumDim
    norm_num

theorem Mood.normalize_nonneg (v : Dim → ℝ) (d : Dim) :
    0 ≤ Mood.normalize v d := by
  unfold Mood.normalize
  by_cases h : sumDim (fun e => max 0 (v e)) = 0
  · simp only [h, if_pos rfl]
    norm_num
  · simp only [h, if_neg h]
    have hs : 0 < sumDim (fun e => max 0 (v e)) :=
      lt_of_le_of_ne (sumMax0_nonneg v) (Ne.symm h)
    exact div_nonneg (le_max_left 0 (v d)) (le_of_lt hs)

theorem Mood.sumDim_normalize (v : Dim → ℝ) :
    sumDim (Mood.normalize v) = 1 := by
  unfold Mood.normalize
  by_cases h : sumDim (fun e => max 0 (v e)) = 0
  · simp only [h, if_pos rfl]
    unfold sumDim
    norm_num
  · simp only [if_neg h]
    unfold sumDim at h ⊢
    field_simp

theorem Mood.normalize_of_nonpos (v : Dim → ℝ) (h : ∀ d, v d ≤ 0) (d : Dim) :
    Mood.normalize v d = 1 / 6 := by
  unfold Mood.normalize
  rw [if_pos ((sumMax0_eq_zero_iff v).mpr h)]

theorem Mood.normalize_eq_self (v : Dim → ℝ) (h0 : ∀ d, 0 ≤ v d)
    (h1 : sumDim v = 1) : Mood.normalize v = v := by
  unfold Mood.normalize
  have hm : (fun d => max 0 (v d)) = v := funext fun d => max_eq_right (h0 d)
  rw [hm, h1]
  norm_num
  exact hm

theorem Mood.normalize_eq_clampRenormSpec (v : Dim → ℝ) :
    Mood.normalize v = clampRenormSpec v := by
  unfold Mood.normalize clampRenormSpec
  by_cases h : ∀ d, v d ≤ 0
  · rw [if_pos ((sumMax0_eq_zero_iff v).mpr h), if_pos h]
  · rw [if_neg (fun hz => h ((sumMax0_eq_zero_iff v).mp hz)), if_neg h]

theorem Mood.resolve_vector (m : Mood) (l : Ledger) (t : ℤ)
    (h : t ≠ m.lastResolvedTick) :
    (m.resolve l t).vector = Mood.normalize (m.resolveRaw l) := by
  unfold Mood.resolve
  rw [if_neg h]

/-- A ledger with the default half-life of 100 and no entries. -/
noncomputable def emptyLedger : Ledger := Ledger.create 100

/-! ## Claim theorems -/

/-- C1: after any effective `resolve()` call, each of the six mood
dimensions is non-negative and their sum is within `1e-6` of `1.0`
(in the real-number model it is exactly 1); when every raw component is
non-positive, the resulting vector is the uniform distribution `1/6`
in every dimension.  The last two conjuncts extend this to every
reachable state: the constructor establishes the same invariant, and a
`resolve` call with an already-resolved tick leaves the state
unchanged, so by induction the invariant holds after every `resolve()`
call from any constructed engine. -/
theorem C1_simplex (m : Mood) (l : Ledger) (t : ℤ)
    (h : t ≠ m.lastResolvedTick) :
    (∀ d, 0 ≤ (m.resolve l t).vector d) ∧
    |sumDim (m.resolve l t).vector - 1| ≤ 1 / 1000000 ∧
    ((∀ d, m.resolveRaw l d ≤ 0) → ∀ d, (m.resolve l t).vector d = 1 / 6) ∧
    (∀ (p : Dim → Option ℝ) (hy as : ℝ),
      (∀ d, 0 ≤ (Mood.create p hy as).vector d) ∧
      |sumDim (Mood.create p hy as).vector - 1| ≤ 1 / 1000000) ∧
    (∀ t' : ℤ, t' = m.lastResolvedTick → m.resolve l t' = m) := by
  have hv := Mood.resolve_vector m l t h
  refine ⟨?_, ?_, ?_, ?_, ?_⟩
  · intro d
    rw [hv]
    exact Mood.normalize_nonneg _ d
  · rw [hv, Mood.sumDim_normalize]
    norm_num
  · intro hnp d
    rw [hv]
    exact Mood.normalize_of_nonpos _ hnp d
  · intro p hy as
    refine ⟨fun d => Mood.normalize_nonneg _ d, ?_⟩
    have : sumDim (Mood.create p hy as).vector = 1 := Mood.sumDim_normalize _
    rw [this]
    norm_num
  · intro t' ht'
    unfold Mood.resolve
    rw [if_pos ht']

theorem C1_simplex_witness :
    ((1 : ℤ) ≠ defaultDeity.mood.lastResolvedTick) ∧
    ((∀ d, 0 ≤ (defaultDeity.mood.resolve emptyLedger 1).vector d) ∧
      |sumDim (defaultDeity.mood.resolve emptyLedger 1).vector - 1| ≤ 1 / 1000000 ∧
      ((∀ d, defaultDeity.mood.resolveRaw emptyLedger d ≤ 0) →
        ∀ d, (defaultDeity.mood.resolve emptyLedger 1).vector d = 1 / 6) ∧
      (∀ (p : Dim → Option ℝ) (hy as : ℝ),
        (∀ d, 0 ≤ (Mood.create p hy as).vector d) ∧
        |sumDim (Mood.create p hy as).vector - 1| ≤ 1 / 1000000) ∧
      (∀ t' : ℤ, t' = defaultDeity.mood.lastResolvedTick →
        defaultDeity.mood.resolve emptyLedger t' = defaultDeity.mood)) :=
  ⟨by decide, C1_simplex defaultDeity.mood emptyLedger 1 (by decide)⟩

/-- C2: an effective `resolve(ledger, currentTick)` produces exactly the
vector described by the spec: per dimension, `delta = impulse[d] +
(personality[d] - current[d]) * attractorStrength`, damped to
`delta * (1 - current*hysteresis)` for positive deltas and
`delta * (1 + current*hysteresis)` otherwise, added to the current value,
then clamped at 0 and renormalized with the uniform fallback. -/
theorem C2_resolve_formula (m : Mood) (l : Ledger) (t : ℤ)
    (h : t ≠ m.lastResolvedTick) :
    (m.resolve l t).vector
      = clampRenormSpec (fun d => m.vector d + effectiveDeltaSpec m l d) := by
  have hraw : m.resolveRaw l = fun d => m.vector d + effectiveDeltaSpec m l d := by
    funext d
    unfold Mood.resolveRaw effectiveDeltaSpec resolveDeltaSpec Mood.computeAttractor
    rfl
  rw [Mood.resolve_vector m l t h, hraw, Mood.normalize_eq_clampRenormSpec]

theorem C2_resolve_formula_witness :
    ((1 : ℤ) ≠ defaultDeity.mood.lastResolvedTick) ∧
    (defaultDeity.mood.resolve emptyLedger 1).vector
      = clampRenormSpec
          (fun d => defaultDeity.mood.vector d
            + effectiveDeltaSpec defaultDeity.mood emptyLedger d) :=
  ⟨by decide, C2_resolve_formula defaultDeity.mood emptyLedger 1 (by decide)⟩

/-- C3: for every entry and current ticks `t₁ ≤ t₂` at or after the
entry's birth tick, the computed weight at `t₁` equals exactly
`0.5 ^ ((t₁ - entry.tick) / halfLife)`, lies in `(0, 1]`, and is
monotonically non-increasing as the current tick advances. -/
theorem C3_decay (l : Ledger) (e : Entry) (t₁ t₂ : ℕ) (hhl : 0 < l.halfLife)
    (he : e.tick ≤ t₁) (ht : t₁ ≤ t₂) :
    ({ l with tick := t₁ } : Ledger).weight e
        = (1 / 2 : ℝ) ^ (((t₁ : ℝ) - (e.tick : ℝ)) / l.halfLife) ∧
    0 < ({ l with tick := t₁ } : Ledger).weight e ∧
    ({ l with tick := t₁ } : Ledger).weight e ≤ 1 ∧
    ({ l with tick := t₂ } : Ledger).weight e
      ≤ ({ l with tick := t₁ } : Ledger).weight e := by
  have hcast : ∀ t : ℕ, e.tick ≤ t → ((t - e.tick : ℕ) : ℝ) = (t : ℝ) - (e.tick : ℝ) :=
    fun t hle => by
      rw [Nat.cast_sub hle]
  refine ⟨?_, ?_, ?_, ?_⟩
  · unfold Ledger.weight
    rw [hcast t₁ he]
  · exact Real.rpow_pos_of_pos (by norm_num) _
  · exact Real.rpow_le_one (by norm_num) (by norm_num)
      (div_nonneg (Nat.cast_nonneg _) hhl.le)
  · unfold Ledger.weight
    refine Real.rpow_le_rpow_of_exponent_ge (by norm_num) (by norm_num) ?_
    have hsub : ((t₁ - e.tick : ℕ) : ℝ) ≤ ((t₂ - e.tick : ℕ) : ℝ) :=
      Nat.cast_le.mpr (Nat.sub_le_sub_right ht _)
    exact (div_le_div_iff_of_pos_right hhl).mpr hsub

theorem C3_decay_witness :
    (0 < emptyLedger.halfLife ∧ (0 : ℕ) ≤ 5 ∧ (5 : ℕ) ≤ 9) ∧
    (({ emptyLedger with tick := 5 } : Ledger).weight ⟨"offer", 0, Meta.empty⟩
        = (1 / 2 : ℝ) ^ (((5 : ℝ) - ((0 : ℕ) : ℝ)) / emptyLedger.halfLife) ∧
      0 < ({ emptyLedger with tick := 5 } : Ledger).weight ⟨"offer", 0, Meta.empty⟩ ∧
      ({ emptyLedger with tick := 5 } : Ledger).weight ⟨"offer", 0, Meta.empty⟩ ≤ 1 ∧
      ({ emptyLedger with tick := 9 } : Ledger).weight ⟨"offer", 0, Meta.empty⟩
        ≤ ({ emptyLedger with tick := 5 } : Ledger).weight ⟨"offer", 0, Meta.empty⟩) :=
  ⟨⟨by norm_num [emptyLedger, Ledger.create], by norm_num, by norm_num⟩,
    C3_decay emptyLedger ⟨"offer", 0, Meta.empty⟩ 5 9
      (by norm_num [emptyLedger, Ledger.create]) (by norm_num) (by norm_num)⟩

/-- C4: `query()` is a pure function of the current vector in either
precision mode (so repeated calls between two resolves are bit-for-bit
identical), and the imprecise read is exactly the spec's fuzz: perturb
each value `v` at index `i` by `sin(v*1000 + i) * 0.02`, clamp to
`[0,1]`, renormalize — no clock or random source enters. -/
theorem C4_query_pure (m₁ m₂ : Mood) (p : Bool) (h : m₁.vector = m₂.vector) :
    Mood.query m₁ p = Mood.query m₂ p ∧
    Mood.query m₁ false = fuzzedReadSpec m₁.vector := by
  constructor
  · unfold Mood.query
    rw [h]
  · unfold Mood.query fuzzedReadSpec
    simp

theorem C4_query_pure_witness :
    (defaultDeity.mood.vector = defaultDeity.mood.vector) ∧
    (Mood.query defaultDeity.mood false = Mood.query defaultDeity.mood false ∧
      Mood.query defaultDeity.mood false = fuzzedReadSpec defaultDeity.mood.vector) :=
  ⟨rfl, C4_query_pure defaultDeity.mood defaultDeity.mood false rfl⟩

theorem Mood.fromPartial_allSome (p : Dim → ℝ) :
    Mood.fromPartial (fun d => some (p d)) = p := by
  funext d
  rfl

theorem Mood.deserialize_serialize (m : Mood) (h0 : ∀ d, 0 ≤ m.personality d)
    (h1 : sumDim m.personality = 1) :
    Mood.deserialize (Mood.serialize m) = m := by
  have hp : Mood.normalize (Mood.fromPartial (fun d => some (m.personality d)))
      = m.personality := by
    rw [Mood.fromPartial_allSome]
    exact Mood.normalize_eq_self m.personality h0 h1
  cases m with
  | mk p h a v t =>
    simp only [Mood.serialize, Mood.deserialize, Mood.create] at hp ⊢
    rw [hp]

/-- C5: `deserialize(serialize(x))` restores the ledger (half-life,
current tick, ordered entry list) and the mood engine state
(personality, current vector, hysteresis, attractor strength,
last-resolved tick) exactly, so the restored deity's `query()` at the
same tick matches the original's within `1e-3` per dimension (here:
exactly).  The personality of any constructed mood is normalized, which
is the stated hypothesis. -/
theorem C5_roundtrip (g : Deity) (h0 : ∀ d, 0 ≤ g.mood.personality d)
    (h1 : sumDim g.mood.personality = 1) :
    (Deity.deserialize (Deity.serialize g)).ledger = g.ledger ∧
    (Deity.deserialize (Deity.serialize g)).mood = g.mood ∧
    (Deity.deserialize (Deity.serialize g)).tick = g.tick ∧
    ∀ d, |(Deity.deserialize (Deity.serialize g)).query.1 d - g.query.1 d|
      ≤ 1 / 1000 := by
  have hm : (Deity.deserialize (Deity.serialize g)).mood = g.mood :=
    Mood.deserialize_serialize g.mood h0 h1
  refine ⟨rfl, hm, rfl, ?_⟩
  intro d
  unfold Deity.query
  rw [hm]
  simp only [sub_self, abs_zero]
  norm_num

theorem C5_roundtrip_witness :
    ((∀ d, 0 ≤ defaultDeity.mood.personality d) ∧
      sumDim defaultDeity.mood.personality = 1) ∧
    ((Deity.deserialize (Deity.serialize defaultDeity)).ledger = defaultDeity.ledger ∧
      (Deity.deserialize (Deity.serialize defaultDeity)).mood = defaultDeity.mood ∧
      (Deity.deserialize (Deity.serialize defaultDeity)).tick = defaultDeity.tick ∧
      ∀ d, |(Deity.deserialize (Deity.serialize defaultDeity)).query.1 d
        - defaultDeity.query.1 d| ≤ 1 / 1000) :=
  ⟨⟨fun d => Mood.normalize_nonneg _ d, Mood.sumDim_normalize _⟩,
    C5_roundtrip defaultDeity (fun d => Mood.normalize_nonneg _ d)
      (Mood.sumDim_normalize _)⟩

theorem Deity.tick'_eq_iterate (g : Deity) (n : ℕ) :
    Deity.tick' g n = Deity.tickOnce^[n] g := by
  induction n generalizing g with
  | zero => rfl
  | succ n ih =>
    rw [Function.iterate_succ_apply]
    exact ih (Deity.tickOnce g)

/-- C6: a single tick step advances the deity and ledger tick counters,
tests the minimum ticks-since-last over the offer/pray/desecrate kinds
against the neglect threshold, records one synthetic neglect entry when
due, and resolves the mood against the ledger that already contains that
entry (so neglect is visible to the same resolution pass); `tick(n)` is
exactly `n` sequential single steps. -/
theorem C6_tick_sequencing (g : Deity) (n : ℕ) :
    Deity.tick' g n = Deity.tickOnce^[n] g ∧
    (g.tickOnce).tick = g.tick + 1 ∧
    (g.tickOnce).ledger.tick = g.ledger.tick + 1 ∧
    (Deity.neglectDue (g.ledger.advanceTick 1) g.neglectThreshold = true →
      (g.tickOnce).ledger.entries
        = (g.ledger.advanceTick 1).entries
          ++ [⟨"neglect", g.ledger.tick + 1, tickNeglectMeta⟩] ∧
      (g.tickOnce).mood
        = g.mood.resolve ((g.ledger.advanceTick 1).record "neglect" tickNeglectMeta)
            ((g.tick + 1 : ℕ) : ℤ)) ∧
    (Deity.neglectDue (g.ledger.advanceTick 1) g.neglectThreshold = false →
      (g.tickOnce).ledger = g.ledger.advanceTick 1 ∧
      (g.tickOnce).mood
        = g.mood.resolve (g.ledger.advanceTick 1) ((g.tick + 1 : ℕ) : ℤ)) := by
  refine ⟨Deity.tick'_eq_iterate g n, ?_, ?_, ?_, ?_⟩
  · rfl
  · cases hdue : Deity.neglectDue (g.ledger.advanceTick 1) g.neglectThreshold <;>
      · simp only [Deity.tickOnce, hdue]
        simp [Ledger.record, Ledger.advanceTick]
  · intro hdue
    simp only [Deity.tickOnce, hdue]
    constructor <;> simp [Ledger.record, Ledger.advanceTick]
  · intro hdue
    simp only [Deity.tickOnce, hdue]
    constructor <;> simp [Ledger.record, Ledger.advanceTick]

theorem C6_tick_sequencing_witness :
    Deity.tick' defaultDeity 2 = Deity.tickOnce^[2] defaultDeity :=
  (C6_tick_sequencing defaultDeity 2).1

theorem Deity.modulate_ledger_entries (g : Deity) (sig : Option String × Bool) :
    (g.modulateFromSurprise sig).ledger.entries
      = g.ledger.entries ++ modulateExtra g.supplicant sig g.ledger.tick := by
  match sig with
  | (none, b) => simp [Deity.modulateFromSurprise, modulateExtra]
  | (some p, b) =>
    cases b
    · by_cases h : g.supplicant.omniscient <;>
        simp [Deity.modulateFromSurprise, modulateExtra, h, Ledger.record]
    · simp [Deity.modulateFromSurprise, modulateExtra, Ledger.record]

/-- C7: on a surprise signal the core injects exactly one synthetic
offer-kind entry; synthetic offers are excluded from the offering-value
impulse; and when the (fully predictable) supplicant is omniscient a
non-surprising signal injects exactly one synthetic neglect entry tagged
with the distinguishing reason `predictability`. -/
theorem C7_surprise_injection (g : Deity) (p : String) :
    ((g.modulateFromSurprise (some p, true)).ledger.entries
        = g.ledger.entries ++ [⟨"offer", g.ledger.tick, surpriseBonusMeta⟩] ∧
      surpriseBonusMeta.synthetic = true) ∧
    (∀ l : Ledger,
      Mood.offerImpact (l.record "offer" surpriseBonusMeta) = Mood.offerImpact l) ∧
    (g.supplicant.omniscient = true →
      (g.modulateFromSurprise (some p, false)).ledger.entries
        = g.ledger.entries ++ [⟨"neglect", g.ledger.tick, predictabilityMeta⟩] ∧
      predictabilityMeta.synthetic = true ∧
      predictabilityMeta.reason = some "predictability") := by
  refine ⟨⟨?_, rfl⟩, ?_, fun h => ⟨?_, rfl, rfl⟩⟩
  · simp [Deity.modulateFromSurprise, Ledger.record]
  · intro l
    simp [Mood.offerImpact, Ledger.record, Ledger.weight, List.filter_append,
      surpriseBonusMeta, Meta.empty]
  · simp [Deity.modulateFromSurprise, h, Ledger.record]

/-- A deity whose supplicant has seen 10 interactions with 9 correct
predictions — accuracy 0.9, hence omniscient. -/
noncomputable def omniscientDeity : Deity :=
  { defaultDeity with supplicant := ⟨10, [], fun _ => 0, 10, 9, none, 0, 0⟩ }

theorem C7_surprise_injection_witness :
    (omniscientDeity.supplicant.omniscient = true) ∧
    ((omniscientDeity.modulateFromSurprise (some "pray", false)).ledger.entries
      = omniscientDeity.ledger.entries
        ++ [⟨"neglect", omniscientDeity.ledger.tick, predictabilityMeta⟩] ∧
    predictabilityMeta.synthetic = true ∧
    predictabilityMeta.reason = some "predictability") :=
  ⟨by norm_num [omniscientDeity, Supplicant.omniscient],
    (C7_surprise_injection omniscientDeity "pray").2.2
      (by norm_num [omniscientDeity, Supplicant.omniscient])⟩

/-- C8: evaluation at the failing input.  `on()` with an unknown event
name is the error case while a valid name succeeds, and an unspecified
offering value is recorded as the 0.3 default; but an out-of-range
action magnitude is NOT clamped: `action('kill', {magnitude: 2})`
records `meta.magnitude = 2`, because the clamped local is overridden by
the trailing `...meta` spread of the record call, and `2 ∉ [0,1]`. -/
theorem C8_action_magnitude_unclamped :
    Deity.on defaultDeity "plague"
      = Except.error
          "Unknown event: plague. Valid: moodShift, utterance, demand, omen, miracle, wrath" ∧
    (Deity.on defaultDeity "wrath").isOk = true ∧
    ((defaultDeity.action "kill" (some 2)).ledger.entries.map
        (fun e => e.meta.magnitude)) = [some (2 : ℝ)] ∧
    ¬ ((2 : ℝ) ≤ 1) ∧
    ((defaultDeity.offer "gold" none none).ledger.entries.map
        (fun e => e.meta.value)) = [some (max 0 (min 1 (0.3 : ℝ)))] ∧
    max 0 (min 1 (0.3 : ℝ)) = 0.3 := by
  refine ⟨rfl, rfl, rfl, by norm_num, rfl, by norm_num⟩

/-- A ledger holding exactly one `pray` entry, recorded at tick 0. -/
noncomputable def oneEntryLedger : Ledger :=
  (Ledger.create 100).record "pray" Meta.empty

/-- C9 counterexample: at `n = 0` the claim predicts the empty list
("the last 0 entries"), but `slice(-0)` is `slice(0)`, so `recent(0)` on
a one-entry ledger returns the whole history reversed, which is not
empty. -/
theorem C9_recent_zero_counterexample :
    oneEntryLedger.recent 0 = [⟨"pray", 0, Meta.empty⟩] ∧
    oneEntryLedger.recent 0 ≠ ([] : List Entry) := by
  refine ⟨rfl, ?_⟩
  intro h
  rw [show oneEntryLedger.recent 0 = [⟨"pray", 0, Meta.empty⟩] from rfl] at h
  exact List.cons_ne_nil _ _ h

/-- C9 (amended): for every `n ≥ 1`, `recent(n)` returns the last `n`
entries (all entries when fewer than `n` exist) ordered newest-first —
i.e. exactly `entries.reverse.take n` — and, being a pure function of
the state, it does not mutate the ledger. -/
theorem C9_recent_amended (l : Ledger) (n : ℕ) (h : 1 ≤ n) :
    l.recent n = l.entries.reverse.take n := by
  unfold Ledger.recent jsSliceNeg
  rw [if_neg (by omega : ¬ n = 0)]
  rw [show l.entries.drop (l.entries.length - n)
        = (l.entries.reverse.take n).reverse
      from List.rtake_eq_reverse_take_reverse l.entries n,
    List.reverse_reverse]

theorem C9_recent_amended_witness :
    (1 ≤ 2) ∧
    oneEntryLedger.recent 2 = oneEntryLedger.entries.reverse.take 2 :=
  ⟨by norm_num, C9_recent_amended oneEntryLedger 2 (by norm_num)⟩

/-- C10: for a deity with a (non-empty) alignment `A`, the entry that
`offer(type, meta)` records carries `effectiveValue = clamp(value)*1.5`
when the offering's alignment equals `A`, `clamp(value)*(-0.5)` when it
is neither `neutral` nor `A`, and `clamp(value)` otherwise, where the
value is clamped to `[0,1]`, defaults to 0.3 and the alignment defaults
to `neutral`; hence a neutral or matching offering never has a negative
effective value. -/
theorem C10_offer_effective_value (g : Deity) (ty : String) (mval : Option ℝ)
    (malign : Option String) (h : g.alignment ≠ "") :
    ((g.offer ty mval malign).ledger.entries
        = g.ledger.entries ++ [⟨"offer", g.ledger.tick, g.offerMeta ty mval malign⟩]
          ++ modulateExtra (g.supplicant.record "offer").2
              (g.supplicant.record "offer").1 g.ledger.tick) ∧
    ((g.offerMeta ty mval malign).effectiveValue
        = some (if malign.getD "neutral" = g.alignment
            then max 0 (min 1 (mval.getD 0.3)) * 1.5
            else if malign.getD "neutral" ≠ "neutral" ∧ malign.getD "neutral" ≠ g.alignment
              then max 0 (min 1 (mval.getD 0.3)) * (-0.5)
              else max 0 (min 1 (mval.getD 0.3)))) ∧
    (0 ≤ max 0 (min 1 (mval.getD 0.3)) ∧ max 0 (min 1 (mval.getD 0.3)) ≤ 1) ∧
    (mval = none → max 0 (min 1 (mval.getD 0.3)) = 0.3) ∧
    ((malign.getD "neutral" = "neutral" ∨ malign.getD "neutral" = g.alignment) →
      0 ≤ ((g.offerMeta ty mval malign).effectiveValue).getD 0) := by
  have hv0 : 0 ≤ max 0 (min 1 (mval.getD 0.3)) := le_max_left _ _
  refine ⟨?_, ?_, ⟨hv0, ?_⟩, ?_, ?_⟩
  · unfold Deity.offer
    rw [Deity.modulate_ledger_entries]
    simp [Ledger.record, List.append_assoc]
  · simp only [Deity.offerMeta]
    rw [if_pos h]
  · exact max_le (by norm_num) (min_le_left _ _)
  · intro hm
    rw [hm]
    norm_num
  · intro hal
    simp only [Deity.offerMeta]
    rw [if_pos h]
    rcases eq_or_ne (malign.getD "neutral") g.alignment with heq | hne
    · rw [if_pos heq]
      simp
      exact mul_nonneg hv0 (by norm_num)
    · rw [if_neg hne]
      have hno : ¬ (malign.getD "neutral" ≠ "neutral" ∧
          malign.getD "neutral" ≠ g.alignment) := by
        rcases hal with h1 | h1
        · intro hc
          exact hc.1 h1
        · intro hc
          exact hc.2 h1
      rw [if_neg hno]
      simp

/-- A deity with the documented alignment `lawful` and every other
constructor option at its default. -/
noncomputable def lawfulDeity : Deity :=
  { defaultDeity with alignment := "lawful" }

theorem C10_offer_effective_value_witness :
    (lawfulDeity.alignment ≠ "") ∧
    (((lawfulDeity.offer "unicorn" (some 0.9) (some "chaotic")).ledger.entries
        = lawfulDeity.ledger.entries
          ++ [⟨"offer", lawfulDeity.ledger.tick,
                lawfulDeity.offerMeta "unicorn" (some 0.9) (some "chaotic")⟩]
          ++ modulateExtra (lawfulDeity.supplicant.record "offer").2
              (lawfulDeity.supplicant.record "offer").1 lawfulDeity.ledger.tick) ∧
      ((lawfulDeity.offerMeta "unicorn" (some 0.9) (some "chaotic")).effectiveValue
        = some (if (some "chaotic").getD "neutral" = lawfulDeity.alignment
            then max 0 (min 1 ((some (0.9 : ℝ)).getD 0.3)) * 1.5
            else if (some "chaotic").getD "neutral" ≠ "neutral" ∧
                (some "chaotic").getD "neutral" ≠ lawfulDeity.alignment
              then max 0 (min 1 ((some (0.9 : ℝ)).getD 0.3)) * (-0.5)
              else max 0 (min 1 ((some (0.9 : ℝ)).getD 0.3)))) ∧
      (0 ≤ max 0 (min 1 ((some (0.9 : ℝ)).getD 0.3)) ∧
        max 0 (min 1 ((some (0.9 : ℝ)).getD 0.3)) ≤ 1) ∧
      ((some (0.9 : ℝ)) = none → max 0 (min 1 ((some (0.9 : ℝ)).getD 0.3)) = 0.3) ∧
      (((some "chaotic").getD "neutral" = "neutral" ∨
          (some "chaotic").getD "neutral" = lawfulDeity.alignment) →
        0 ≤ ((lawfulDeity.offerMeta "unicorn" (some 0.9)
          (some "chaotic")).effectiveValue).getD 0)) :=
  ⟨by decide,
    C10_offer_effective_value lawfulDeity "unicorn" (some 0.9) (some "chaotic")
      (by decide)⟩
